import Mathlib

/-
  Verification development for the STUDY HUB application
  (src/edu_study_hub.py): a shallow embedding of its prompt
  construction, request payloads, and per-session state, together
  with theorems checking the specification's claims.

  Conventions of the embedding:
  * Python strings are Lean `String`s; f-string interpolation becomes
    explicit `++` concatenation with the same literal segments.
  * The float temperature literals 0.7 / 0.6 are modelled as rationals.
  * The single HTTP call inside `call_ollama` is abstracted by a
    `BackendOutcome` parameter; everything around it is translated
    directly from the source.
  * Python lists held in `st.session_state` are mutable heap objects;
    the session model therefore keeps a small heap of list cells
    (`AppState.cells`) so that object aliasing (a dict storing the
    same list object that the session key points to) is represented
    faithfully.
-/

set_option maxRecDepth 10000

namespace StudyHub

/-- Fixed endpoint constant (source line 18). -/
def OLLAMA_API_URL : String := "http://localhost:11434/api/generate"

/-- Fixed model identifier (source line 19). -/
def MODEL_NAME : String := "granite3.1-dense:2b"

/-- Detail level, the three values offered by the `Detail Level` selectbox
(source lines 954-957); `generate_syllabus` looks this key up in its
`detail_instruction` dict (source lines 75-79). -/
inductive DetailLevel
  | brief
  | standard
  | comprehensive
deriving DecidableEq

/-- Translation of the `detail_instruction` dict of `generate_syllabus`
(source lines 75-79), defined on the selectbox's three-value domain. -/
def detailInstruction : DetailLevel → String
  | .brief => "Keep it concise and high-level"
  | .standard => "Provide balanced detail"
  | .comprehensive => "Include extensive details, examples, and explanations"

/-- Parameters of `generate_syllabus` (source lines 68-70). `numSemesters`
is a `Nat` because the UI number input is bounded to 1..10 (lines 945-950). -/
structure SyllabusParams where
  skills : List String
  numSemesters : Nat
  programName : String
  programType : String
  additionalInfo : String
  detailLevel : DetailLevel
  includePrerequisites : Bool
  includeResources : Bool
deriving DecidableEq

/-- The prompt f-string of `generate_syllabus` (source lines 73-130),
transcribed literally: `skills_text` is the comma join of the skills,
`prereq_text` / `resources_text` are the two conditional instruction
lines, and an empty `additional_info` renders as the literal `None`. -/
def syllabusPrompt (p : SyllabusParams) : String :=
  let skillsText := String.intercalate (", ") p.skills
  let prereqText := if p.includePrerequisites then "- Prerequisites and recommended background" else ""
  let resourcesText := if p.includeResources then "- Required Resources: textbooks, software, tools" else ""
  "You are an expert curriculum designer. Create a detailed, comprehensive semester-wise syllabus.\n\nProgram Name: "
    ++ p.programName
    ++ "\nProgram Type: "
    ++ p.programType
    ++ "\nNumber of Semesters: "
    ++ toString p.numSemesters
    ++ "\nSkills to Cover: "
    ++ skillsText
    ++ "\nDetail Level: "
    ++ detailInstruction p.detailLevel
    ++ "\nAdditional Requirements: "
    ++ (if p.additionalInfo = "" then "None" else p.additionalInfo)
    ++ "\n\nGenerate a detailed syllabus with the following structure:\n\n1. PROGRAM OVERVIEW\n- Program duration\n- Learning objectives\n- Target audience\n"
    ++ prereqText
    ++ "\n\n2. For EACH SEMESTER (Semester 1 to "
    ++ toString p.numSemesters
    ++ "):\n   SEMESTER [NUMBER]: [NAME]\n   - Duration: [weeks]\n   - Focus Areas: [main topics]\n   \n   COURSES:\n   Course 1: [Course Name]\n   - Credits: [number]\n   - Description: [brief description]\n   - Topics Covered:\n     • [Topic 1]\n     • [Topic 2]\n     • [Topic 3]\n   - Skills Developed: [skills from the input list]\n   - Assessment Methods: [how students are evaluated]\n   "
    ++ resourcesText
    ++ "\n   \n   Course 2: [Course Name]\n   [Same structure as above]\n   \n   [Continue for 3-4 courses per semester]\n\n3. SKILL PROGRESSION MAP\n- Show how skills build across semesters\n\n4. CAREER PATHWAYS\n- Potential career outcomes\n- Job roles and opportunities\n\nPlease provide a comprehensive, well-structured response."

/-- The instruction line controlled by `include_prerequisites`
(source line 81). -/
def prereqInstruction : String := "- Prerequisites and recommended background"

/-- The instruction line controlled by `include_resources`
(source line 82). -/
def resourcesInstruction : String := "- Required Resources: textbooks, software, tools"

/-- Everything of the syllabus prompt before the additional-requirements
value; depends only on the non-optional fields. -/
def sylHead (programName programType : String) (numSemesters : Nat)
    (skills : List String) (detailLevel : DetailLevel) : String :=
  "You are an expert curriculum designer. Create a detailed, comprehensive semester-wise syllabus.\n\nProgram Name: "
    ++ programName
    ++ "\nProgram Type: "
    ++ programType
    ++ "\nNumber of Semesters: "
    ++ toString numSemesters
    ++ "\nSkills to Cover: "
    ++ String.intercalate (", ") skills
    ++ "\nDetail Level: "
    ++ detailInstruction detailLevel
    ++ "\nAdditional Requirements: "

/-- The fixed text between the additional-requirements value and the
prerequisites slot; note it ends with the newline that precedes the
prerequisites line. -/
def sylOverview : String :=
  "\n\nGenerate a detailed syllabus with the following structure:\n\n1. PROGRAM OVERVIEW\n- Program duration\n- Learning objectives\n- Target audience\n"

/-- The fixed text between the prerequisites slot and the resources slot;
it starts with the newline that ends the prerequisites line and ends with
the indentation preceding the resources line. Depends only on the
semester count. -/
def sylSemesterBlock (numSemesters : Nat) : String :=
  "\n\n2. For EACH SEMESTER (Semester 1 to "
    ++ toString numSemesters
    ++ "):\n   SEMESTER [NUMBER]: [NAME]\n   - Duration: [weeks]\n   - Focus Areas: [main topics]\n   \n   COURSES:\n   Course 1: [Course Name]\n   - Credits: [number]\n   - Description: [brief description]\n   - Topics Covered:\n     • [Topic 1]\n     • [Topic 2]\n     • [Topic 3]\n   - Skills Developed: [skills from the input list]\n   - Assessment Methods: [how students are evaluated]\n   "

/-- The fixed text after the resources slot; starts with the newline that
ends the resources line. -/
def sylTail : String :=
  "\n   \n   Course 2: [Course Name]\n   [Same structure as above]\n   \n   [Continue for 3-4 courses per semester]\n\n3. SKILL PROGRESSION MAP\n- Show how skills build across semesters\n\n4. CAREER PATHWAYS\n- Potential career outcomes\n- Job roles and opportunities\n\nPlease provide a comprehensive, well-structured response."

/-- The prompt f-string of `enhance_course_details` (source lines 152-173). -/
def courseDetailPrompt (courseName : String) (skills : List String) : String :=
  "You are a curriculum specialist. Create detailed course content for:\n\nCourse: "
    ++ courseName
    ++ "\nRelated Skills: "
    ++ String.intercalate (", ") skills
    ++ "\n\nProvide:\n1. COURSE DESCRIPTION (2-3 paragraphs)\n2. LEARNING OUTCOMES (5-7 specific outcomes)\n3. WEEKLY BREAKDOWN (12-15 weeks):\n   Week 1: [Topic] - [What students will learn]\n   Week 2: [Topic] - [What students will learn]\n   [Continue...]\n4. ASSESSMENT STRUCTURE:\n   - Assignment types\n   - Project details\n   - Exam format\n5. REQUIRED RESOURCES:\n   - Textbooks/materials\n   - Software/tools\n   - Online resources\n\nBe specific and detailed."

/-- The prompt f-string of `analyze_skill_gap` (source lines 181-202). -/
def skillGapPrompt (currentSkills : List String) (targetProgram : String) : String :=
  "You are a career advisor and skill gap analyst.\n\nCurrent Skills: "
    ++ String.intercalate (", ") currentSkills
    ++ "\nTarget Program: "
    ++ targetProgram
    ++ "\n\nAnalyze:\n1. SKILL GAP ANALYSIS\n   - Skills the person already has\n   - Skills they need to acquire\n   - Priority level for each missing skill\n\n2. LEARNING PATHWAY\n   - Recommended learning sequence\n   - Estimated time to acquire each skill\n   - Resources and courses\n\n3. CAREER READINESS SCORE\n   - Rate current readiness (0-100%)\n   - Key areas to focus on\n   - Timeline to become job-ready\n\nBe specific and actionable."

/-- The prompt f-string of `generate_study_schedule` (source lines 211-233). -/
def schedulePrompt (numSemesters coursesPerSemester hoursPerWeek : Nat) : String :=
  "You are a study planner expert. Create a detailed study schedule.\n\nProgram Duration: "
    ++ toString numSemesters
    ++ " semesters\nCourses per Semester: "
    ++ toString coursesPerSemester
    ++ "\nAvailable Hours per Week: "
    ++ toString hoursPerWeek
    ++ "\n\nCreate:\n1. WEEKLY TIME ALLOCATION\n   - Hours per course\n   - Study sessions breakdown\n   - Break times\n\n2. SEMESTER MILESTONES\n   - Week-by-week goals\n   - Assignment deadlines\n   - Exam preparation schedule\n\n3. PRODUCTIVITY TIPS\n   - Best practices for time management\n   - Study techniques\n   - Work-life balance strategies\n\nBe practical and specific."

/-- The prompt f-string of `compare_programs` (source lines 241-262). -/
def comparisonPrompt (program1 program2 : String) : String :=
  "You are an education consultant. Compare these two programs:\n\nProgram 1: "
    ++ program1
    ++ "\nProgram 2: "
    ++ program2
    ++ "\n\nProvide:\n1. CURRICULUM COMPARISON\n   - Core subjects\n   - Specialization areas\n   - Hands-on vs theory\n\n2. CAREER OUTCOMES\n   - Job roles for each\n   - Salary expectations\n   - Industry demand\n\n3. RECOMMENDATION\n   - Who should choose Program 1\n   - Who should choose Program 2\n   - Key decision factors\n\nBe objective and detailed."

/-- The prompt f-string of `generate_learning_roadmap` (source lines 270-291). -/
def roadmapPrompt (skills : List String) (timelineWeeks : Nat) : String :=
  "You are a learning path designer. Create a roadmap to master these skills:\n\nSkills: "
    ++ String.intercalate (", ") skills
    ++ "\nTimeline: "
    ++ toString timelineWeeks
    ++ " weeks\n\nCreate:\n1. PHASE-BY-PHASE BREAKDOWN\n   - What to learn each phase\n   - Projects to build\n   - Milestones to achieve\n\n2. RESOURCE RECOMMENDATIONS\n   - Online courses\n   - Books and tutorials\n   - Practice platforms\n\n3. PROGRESS TRACKING\n   - How to measure progress\n   - Portfolio projects\n   - Certification goals\n\nBe practical and motivating."

/-- The JSON body `call_ollama` serializes (source lines 44-49).
The float temperature is modelled as a rational. -/
structure Payload where
  model : String
  prompt : String
  stream : Bool
  temperature : ℚ

/-- Payload construction inside `call_ollama` (source lines 44-49):
fixed model name, the caller's prompt, `stream=false`, and the caller's
temperature. -/
def ollamaPayload (prompt : String) (temperature : ℚ) : Payload :=
  ⟨MODEL_NAME, prompt, false, temperature⟩

/-- The six task kinds of the specification. -/
inductive TaskKind
  | syllabus
  | courseDetail
  | skillGap
  | schedule
  | comparison
  | roadmap
deriving DecidableEq

/-- A generation request: one of the six task kinds with the parameters
its source function takes. -/
inductive GenRequest
  | syllabus (p : SyllabusParams)
  | courseDetail (courseName : String) (relatedSkills : List String)
  | skillGap (currentSkills : List String) (targetProgram : String)
  | schedule (numSemesters coursesPerSemester hoursPerWeek : Nat)
  | comparison (programA programB : String)
  | roadmap (skills : List String) (timelineWeeks : Nat)

/-- The task kind of a request. -/
def GenRequest.kind : GenRequest → TaskKind
  | .syllabus _ => .syllabus
  | .courseDetail _ _ => .courseDetail
  | .skillGap _ _ => .skillGap
  | .schedule _ _ _ => .schedule
  | .comparison _ _ => .comparison
  | .roadmap _ _ => .roadmap

/-- The payload each of the six generation functions hands to
`call_ollama`: `generate_syllabus` passes temperature 0.7 (source
line 133); the other five pass 0.6 (source lines 175, 204, 235,
264, 293). -/
def buildRequest : GenRequest → Payload
  | .syllabus p => ollamaPayload (syllabusPrompt p) (0.7 : ℚ)
  | .courseDetail c s => ollamaPayload (courseDetailPrompt c s) (0.6 : ℚ)
  | .skillGap cs t => ollamaPayload (skillGapPrompt cs t) (0.6 : ℚ)
  | .schedule a b c => ollamaPayload (schedulePrompt a b c) (0.6 : ℚ)
  | .comparison a b => ollamaPayload (comparisonPrompt a b) (0.6 : ℚ)
  | .roadmap s w => ollamaPayload (roadmapPrompt s w) (0.6 : ℚ)

/-- The prompt string of a request's payload. -/
def buildPrompt (r : GenRequest) : String := (buildRequest r).prompt

/-- Translation of the generation paths of `main` as far as the sidebar
`AI Temperature` slider is concerned: the slider value is bound to
`ai_temp` (source line 847) and never read again, so the payload of
every adapter call is built from the request alone. -/
def genAction (uiTemperature : ℚ) (r : GenRequest) : Payload := buildRequest r

/-- Outcome of the HTTP POST inside `call_ollama`: a 2xx JSON body whose
`response` field may be absent, a connection error, a timeout, or any
other exception (including non-2xx raised by `raise_for_status`). -/
inductive BackendOutcome
  | success (responseField : Option String)
  | connectionError
  | timeoutError
  | otherError (msg : String)

/-- The string `call_ollama` returns (source lines 51-65): the body's
`response` field with default empty (line 55), and the empty string for
every exception branch (lines 57-65). -/
def callOllama : BackendOutcome → String
  | .success (some t) => t
  | .success none => ""
  | .connectionError => ""
  | .timeoutError => ""
  | .otherError _ => ""

/-- The add-skill handler (source lines 978-981): append only when the
text is non-empty (Python truthiness) and not already present. -/
def addSkill (s : String) (l : List String) : List String :=
  if s ≠ "" ∧ s ∉ l then l ++ [s] else l

/-- The sidebar quick-add handler (source lines 891-895): append only
when not already present (the sample labels are non-empty literals). -/
def quickAddSkill (s : String) (l : List String) : List String :=
  if s ∉ l then l ++ [s] else l

/-- Effect of `skills_list.remove(skill)` (source line 998) on the list:
remove the first exact match. The only call site iterates over the list
itself, so the element is always present; on an absent element Python
would raise `ValueError`, also leaving the list unchanged, which the
fall-through equations model. -/
def removeSkill (s : String) : List String → List String
  | [] => []
  | x :: xs => if x = s then xs else x :: removeSkill s xs

/-- The UI operations that mutate the skills list: add from the text
input (lines 978-981), quick-add from the sidebar (lines 891-895),
remove (lines 995-999), and clear (lines 899-901). -/
inductive SkillOp
  | add (s : String)
  | quickAdd (s : String)
  | remove (s : String)
  | clear

/-- Apply one skills-list operation. `clear` rebinds the key to a fresh
empty list (source line 900). -/
def applySkillOp (l : List String) : SkillOp → List String
  | .add s => addSkill s l
  | .quickAdd s => quickAddSkill s l
  | .remove s => removeSkill s l
  | .clear => []

/-- A history record appended on successful syllabus generation
(source lines 1048-1051). -/
structure HistEntry where
  name : String
  date : String
deriving DecidableEq

/-- The dict returned by `generate_syllabus` (source lines 138-146).
Its `skills` entry stores the list object it was passed, so here it is a
reference (`skillsRef`) into the session heap, not a list value. -/
structure ResultRec where
  programName : String
  programType : String
  numSemesters : Nat
  skillsRef : Nat
  syllabusContent : String
  generatedAt : String
  detailLevel : DetailLevel
deriving DecidableEq

/-- Session state (source lines 711-716) with a small heap of list
cells so that Python list-object aliasing is represented: `skillsRef`
is the cell `st.session_state.skills_list` currently points at. -/
structure AppState where
  cells : List (List String)
  skillsRef : Nat
  generated : Option ResultRec
  history : List HistEntry
deriving DecidableEq

/-- Initial session state (source lines 711-716): empty skills list,
no generated syllabus, empty history. -/
def initState : AppState := ⟨[[]], 0, none, []⟩

/-- The value of the skills list the session currently points at. -/
def currentSkills (st : AppState) : List String := st.cells.getD st.skillsRef []

/-- In-place update of the skills-list cell (what `append` and `remove`
do to the shared list object). -/
def setSkills (st : AppState) (l : List String) : AppState :=
  { st with cells := st.cells.set st.skillsRef l }

/-- Add-skill UI event on the session (source lines 978-981). -/
def addSkillStep (st : AppState) (s : String) : AppState :=
  setSkills st (addSkill s (currentSkills st))

/-- Quick-add UI event on the session (source lines 891-895). -/
def quickAddSkillStep (st : AppState) (s : String) : AppState :=
  setSkills st (quickAddSkill s (currentSkills st))

/-- Remove-skill UI event on the session (source lines 995-999);
mutates the shared list object in place. -/
def removeSkillStep (st : AppState) (s : String) : AppState :=
  setSkills st (removeSkill s (currentSkills st))

/-- Clear-skills UI event (source lines 899-901):
`st.session_state.skills_list = []` rebinds the key to a fresh empty
list object, leaving the old cell intact. -/
def clearSkillsStep (st : AppState) : AppState :=
  { st with skillsRef := st.cells.length, cells := st.cells ++ [[]] }

/-- The skills recorded in the current generated syllabus, read through
the reference its dict stores. -/
def recordedSkills (st : AppState) : Option (List String) :=
  st.generated.map (fun r => st.cells.getD r.skillsRef [])

/-- The value `generate_syllabus` returns (source lines 135-146): `none`
when `call_ollama` came back empty, otherwise the result dict. The
network call is abstracted by `outcome`; `genAt` stands for the
`time.strftime` timestamp. -/
def generateSyllabusDict (skillsRef : Nat) (p : SyllabusParams) (genAt : String)
    (outcome : BackendOutcome) : Option ResultRec :=
  let response := callOllama outcome
  if response = "" then none
  else some ⟨p.programName, p.programType, p.numSemesters, skillsRef, response, genAt, p.detailLevel⟩

/-- The generate-button handler of `main` (source lines 1029-1053):
validate program name and skills, call `generate_syllabus` on the
session's skills list, and only on a truthy result overwrite
`generated_syllabus` and append a history entry (`histAt` stands for the
`datetime.now` timestamp). -/
def generateButtonStep (st : AppState) (p : SyllabusParams) (genAt histAt : String)
    (outcome : BackendOutcome) : AppState :=
  if p.programName = "" then st
  else if (currentSkills st).length = 0 then st
  else
    match generateSyllabusDict st.skillsRef p genAt outcome with
    | none => st
    | some r => { st with generated := some r, history := st.history ++ [⟨p.programName, histAt⟩] }

/-- Boolean test that the list `needle` is a prefix of `hay`. -/
def startsWithL : List Char → List Char → Bool
  | [], _ => true
  | _ :: _, [] => false
  | c :: cs, h :: hs => c == h && startsWithL cs hs

/-- Boolean test that `needle` occurs contiguously in the second list. -/
def hasSubL (needle : List Char) : List Char → Bool
  | [] => startsWithL needle []
  | h :: hs => startsWithL needle (h :: hs) || hasSubL needle hs

/-- Substring test on strings. -/
def containsSub (hay needle : String) : Bool := hasSubL needle.data hay.data

/-- Split a character list at newline characters. -/
def breakLines : List Char → List (List Char)
  | [] => [[]]
  | c :: cs =>
    match breakLines cs with
    | [] => [[c]]
    | l :: ls => if c = '\n' then [] :: l :: ls else (c :: l) :: ls

/-- The newline-separated lines of a string. -/
def linesOf (s : String) : List String := (breakLines s.data).map String.mk

/-- The syllabus-scenario parameters used by the specification's test
properties. -/
def exampleParams : SyllabusParams :=
  ⟨[("Python"), ("SQL")], 4, ("Data Science Bootcamp"), ("Bootcamp"), (""),
    DetailLevel.standard, true, true⟩

/-- A concrete session run: add two skills, then generate a syllabus
successfully. -/
def c9state : AppState :=
  generateButtonStep (addSkillStep (addSkillStep initState ("Python")) ("SQL"))
    exampleParams ("2026-01-01 10:00:00") ("2026-01-01 10:00")
    (BackendOutcome.success (some ("SYLLABUS TEXT")))

/-- A concrete generated-result record whose skills reference is the
session's skills cell. -/
def aliasRec : ResultRec :=
  ⟨("P"), ("Degree Program"), 1, 0, ("X"), ("2026-01-01 10:00:00"), DetailLevel.standard⟩

/-- A concrete session state holding `aliasRec` as its current result. -/
def aliasState : AppState := ⟨[[("Python")]], 0, some aliasRec, []⟩

/- ------------------------------------------------------------------ -/
/- Helper lemmas                                                      -/
/- ------------------------------------------------------------------ -/

/-- Removing the first match yields a sublist. -/
theorem removeSkill_sublist (s : String) (l : List String) :
    List.Sublist (removeSkill s l) l := by
  induction l with
  | nil => simp [removeSkill]
  | cons x xs ih =>
    by_cases hx : x = s
    · simp only [removeSkill, if_pos hx]
      exact List.sublist_cons_self x xs
    · simp only [removeSkill, if_neg hx]
      exact List.Sublist.cons₂ x ih

/-- Every skills-list operation preserves freedom from duplicates. -/
theorem applySkillOp_nodup (l : List String) (op : SkillOp) (h : l.Nodup) :
    (applySkillOp l op).Nodup := by
  cases op with
  | add s =>
    by_cases hc : s ≠ "" ∧ s ∉ l
    · simp only [applySkillOp, addSkill, if_pos hc]
      simp [List.nodup_append, h, hc.2]
    · simp [applySkillOp, addSkill, hc, h]
  | quickAdd s =>
    by_cases hc : s ∉ l
    · simp only [applySkillOp, quickAddSkill, if_pos hc]
      simp [List.nodup_append, h, hc]
    · simp [applySkillOp, quickAddSkill, hc, h]
  | remove s => exact h.sublist (removeSkill_sublist s l)
  | clear => simp [applySkillOp]

/- ------------------------------------------------------------------ -/
/- Claim theorems                                                     -/
/- ------------------------------------------------------------------ -/

/-- C1: every generation call sends temperature 0.7 to the backend when
the task kind is Syllabus and 0.6 for each of the other five task
kinds. -/
theorem generation_temperature (r : GenRequest) :
    (buildRequest r).temperature =
      if r.kind = TaskKind.syllabus then (0.7 : ℚ) else (0.6 : ℚ) := by
  cases r <;> rfl

/-- C2: when the generation call fails (connection error, timeout, any
other transport/HTTP error) or returns an empty or missing response
field, the generate-button handler leaves the session state exactly as
it was: neither the current syllabus result nor the history changes. -/
theorem failed_generation_preserves_state (st : AppState) (p : SyllabusParams)
    (genAt histAt : String) (outcome : BackendOutcome)
    (h : outcome = BackendOutcome.connectionError ∨
         outcome = BackendOutcome.timeoutError ∨
         (∃ m, outcome = BackendOutcome.otherError m) ∨
         outcome = BackendOutcome.success none ∨
         outcome = BackendOutcome.success (some (""))) :
    generateButtonStep st p genAt histAt outcome = st := by
  have hc : callOllama outcome = "" := by
    rcases h with h | h | ⟨m, h⟩ | h | h <;> subst h <;> rfl
  have hd : generateSyllabusDict st.skillsRef p genAt outcome = none := by
    simp [generateSyllabusDict, hc]
  by_cases h1 : p.programName = ""
  · simp [generateButtonStep, h1]
  · by_cases h2 : (currentSkills st).length = 0
    · simp [generateButtonStep, h1, h2]
    · simp [generateButtonStep, h1, h2, hd]

/-- Witness for C2 at a concrete state and a connection error. -/
theorem failed_generation_preserves_state_witness :
    generateButtonStep initState exampleParams ("2026-01-01 10:00:00")
      ("2026-01-01 10:00") BackendOutcome.connectionError = initState :=
  failed_generation_preserves_state initState exampleParams ("2026-01-01 10:00:00")
    ("2026-01-01 10:00") BackendOutcome.connectionError (Or.inl rfl)

/-- C3 counterexample: with `includePrerequisites = false` the syllabus
prompt is NOT the prompt with the prerequisites instruction line
removed; the line count is unchanged, because the line stays behind as a
blank line (position 15 holds the instruction when the flag is set, and
the empty string when it is not). -/
theorem syllabus_optional_line_left_blank :
    linesOf (syllabusPrompt { exampleParams with includePrerequisites := false })
        ≠ (linesOf (syllabusPrompt exampleParams)).erase prereqInstruction ∧
    (linesOf (syllabusPrompt { exampleParams with includePrerequisites := false })).length
        = (linesOf (syllabusPrompt exampleParams)).length ∧
    (linesOf (syllabusPrompt exampleParams)).getD 15 ("") = prereqInstruction ∧
    (linesOf (syllabusPrompt { exampleParams with includePrerequisites := false })).getD 15 ("")
        = ("") := by
  refine ⟨?_, ?_, ?_, ?_⟩ <;> decide

/-- C3 amended: the syllabus prompt decomposes into fixed parts that do
not depend on the optional fields, with exactly one substitution slot
per optional field: a false `includePrerequisites` or `includeResources`
substitutes the empty string for the instruction text (leaving its line
blank rather than dropping it), and an empty `additionalInfo`
substitutes the literal `None`; nothing else changes. -/
theorem syllabusPrompt_optional_substitution (p : SyllabusParams) :
    syllabusPrompt p =
      sylHead p.programName p.programType p.numSemesters p.skills p.detailLevel
        ++ (if p.additionalInfo = "" then "None" else p.additionalInfo)
        ++ sylOverview
        ++ (if p.includePrerequisites then prereqInstruction else "")
        ++ sylSemesterBlock p.numSemesters
        ++ (if p.includeResources then resourcesInstruction else "")
        ++ sylTail := by
  simp [syllabusPrompt, sylHead, sylOverview, sylSemesterBlock, sylTail,
    prereqInstruction, resourcesInstruction, String.append_assoc]

/-- C4: adding a skill is a no-op on the empty string and on an already
present skill (exact match); otherwise it appends at the end; it is
idempotent, and adding Python twice to the empty list yields the
one-element list. -/
theorem addSkill_spec (s : String) (l : List String) :
    addSkill ("") l = l ∧
    (s ∈ l → addSkill s l = l) ∧
    (s ≠ "" → s ∉ l → addSkill s l = l ++ [s]) ∧
    addSkill s (addSkill s l) = addSkill s l ∧
    addSkill ("Python") (addSkill ("Python") []) = [("Python")] := by
  refine ⟨?_, ?_, ?_, ?_, ?_⟩
  · simp [addSkill]
  · intro h
    simp [addSkill, h]
  · intro h1 h2
    simp [addSkill, h1, h2]
  · by_cases hs : s = ""
    · simp [addSkill, hs]
    · by_cases hm : s ∈ l
      · simp [addSkill, hs, hm]
      · simp [addSkill, hs, hm]
  · decide

/-- Witness for C4 at concrete inputs. -/
theorem addSkill_spec_witness :
    addSkill ("SQL") [("SQL")] = [("SQL")] ∧
    addSkill ("Python") [] = [] ++ [("Python")] :=
  ⟨(addSkill_spec ("SQL") [("SQL")]).2.1 (by decide),
    (addSkill_spec ("Python") []).2.2.1 (by decide) (by decide)⟩

/-- C5: prompt construction is a pure function of the request, so two
calls with identical inputs produce identical prompt strings. -/
theorem prompt_deterministic (r₁ r₂ : GenRequest) (h : r₁ = r₂) :
    buildPrompt r₁ = buildPrompt r₂ :=
  congrArg buildPrompt h

/-- Witness for C5 at a concrete request. -/
theorem prompt_deterministic_witness :
    buildPrompt (GenRequest.comparison ("CS Degree") ("Data Science Bootcamp"))
      = buildPrompt (GenRequest.comparison ("CS Degree") ("Data Science Bootcamp")) :=
  prompt_deterministic _ _ rfl

/-- C6: for the specification's syllabus scenario (skills Python and
SQL, 4 semesters, program Data Science Bootcamp of type Bootcamp,
standard detail, both optional instruction lines enabled) the request
uses temperature 0.7 and the prompt contains the literal substrings
Data Science Bootcamp, Bootcamp, 4, Python, SQL, and both instruction
lines. -/
theorem syllabus_scenario_prompt :
    (buildRequest (GenRequest.syllabus exampleParams)).temperature = (0.7 : ℚ) ∧
    containsSub (syllabusPrompt exampleParams) ("Data Science Bootcamp") = true ∧
    containsSub (syllabusPrompt exampleParams) ("Bootcamp") = true ∧
    containsSub (syllabusPrompt exampleParams) ("4") = true ∧
    containsSub (syllabusPrompt exampleParams) ("Python, SQL") = true ∧
    containsSub (syllabusPrompt exampleParams) ("- Prerequisites and recommended background") = true ∧
    containsSub (syllabusPrompt exampleParams) ("- Required Resources: textbooks, software, tools") = true := by
  refine ⟨rfl, ?_, ?_, ?_, ?_, ?_, ?_⟩ <;> decide

/-- C7: removing a skill that is not present leaves the list (and hence
its size) unchanged; removing a present skill removes exactly the first
exact match. -/
theorem removeSkill_spec (s : String) (l : List String) :
    (s ∉ l → removeSkill s l = l) ∧
    (s ∈ l → ∃ a b, l = a ++ s :: b ∧ s ∉ a ∧ removeSkill s l = a ++ b) := by
  induction l with
  | nil => simp [removeSkill]
  | cons x xs ih =>
    constructor
    · intro h
      have hx : ¬ x = s := by
        intro hh
        exact h (by simp [hh])
      have hs : s ∉ xs := by
        intro hh
        exact h (by simp [hh])
      simp only [removeSkill, if_neg hx]
      rw [ih.1 hs]
    · intro h
      by_cases hx : x = s
      · refine ⟨[], xs, by simp [hx], by simp, ?_⟩
        simp [removeSkill, hx]
      · have hs : s ∈ xs := by
          rcases List.mem_cons.mp h with h1 | h1
          · exact absurd h1.symm hx
          · exact h1
        obtain ⟨a, b, hab, hna, hrm⟩ := ih.2 hs
        refine ⟨x :: a, b, by simp [hab], ?_, ?_⟩
        · intro hh
          rcases List.mem_cons.mp hh with h1 | h1
          · exact hx h1.symm
          · exact hna h1
        · simp only [removeSkill, if_neg hx, hrm, List.cons_append]

/-- Witness for C7 at concrete inputs. -/
theorem removeSkill_spec_witness :
    removeSkill ("Rust") [("Python")] = [("Python")] ∧
    (∃ a b, [("Python")] = a ++ ("Python") :: b ∧ ("Python") ∉ a ∧
      removeSkill ("Python") [("Python")] = a ++ b) :=
  ⟨(removeSkill_spec ("Rust") [("Python")]).1 (by decide),
    (removeSkill_spec ("Python") [("Python")]).2 (by decide)⟩

/-- C8: every skills-list operation (add, quick-add, remove, clear)
preserves freedom from duplicates, and every sequence of operations
starting from the empty default yields a duplicate-free list. -/
theorem skills_list_nodup :
    (∀ (l : List String) (op : SkillOp), l.Nodup → (applySkillOp l op).Nodup) ∧
    (∀ ops : List SkillOp, (ops.foldl applySkillOp []).Nodup) := by
  constructor
  · exact applySkillOp_nodup
  · have hgen : ∀ (ops : List SkillOp) (l : List String), l.Nodup →
        (ops.foldl applySkillOp l).Nodup := by
      intro ops
      induction ops with
      | nil =>
        intro l h
        simpa using h
      | cons op rest ih =>
        intro l h
        exact ih _ (applySkillOp_nodup _ _ h)
    intro ops
    exact hgen ops [] List.nodup_nil

/-- Witness for C8 at concrete inputs. -/
theorem skills_list_nodup_witness :
    (applySkillOp [] (SkillOp.add ("Python"))).Nodup ∧
    ([SkillOp.add ("Python"), SkillOp.add ("Python"),
      SkillOp.quickAdd ("SQL")].foldl applySkillOp []).Nodup :=
  ⟨skills_list_nodup.1 [] (SkillOp.add ("Python")) List.nodup_nil,
    skills_list_nodup.2 _⟩

/-- C9 counterexample: after a successful syllabus generation, removing
a skill DOES change the skills recorded in the current result, because
the result dict stores the very list object the session mutates: the
recorded skills shrink from Python, SQL to Python alone. -/
theorem recorded_skills_not_immutable :
    recordedSkills (removeSkillStep c9state ("SQL")) ≠ recordedSkills c9state ∧
    recordedSkills c9state = some [("Python"), ("SQL")] ∧
    recordedSkills (removeSkillStep c9state ("SQL")) = some [("Python")] := by
  refine ⟨?_, ?_, ?_⟩ <;> decide

/-- C9 amended: the generated result's skills field aliases the live
skills list rather than copying it: while the result references the
session's skills cell, in-place mutations (remove, add) are visible
through the recorded skills, whereas clearing — which rebinds the
session key to a fresh list object — leaves the recorded skills at the
value the old object had. -/
theorem generation_result_aliases_skills (st : AppState) (r : ResultRec) (s : String)
    (h1 : st.generated = some r) (h2 : r.skillsRef = st.skillsRef)
    (h3 : st.skillsRef < st.cells.length) :
    recordedSkills (removeSkillStep st s) = some (removeSkill s (currentSkills st)) ∧
    recordedSkills (addSkillStep st s) = some (addSkill s (currentSkills st)) ∧
    recordedSkills (clearSkillsStep st) = some (currentSkills st) := by
  refine ⟨?_, ?_, ?_⟩
  · simp [recordedSkills, removeSkillStep, setSkills, h1, h2, currentSkills,
      List.getD, List.getElem?_set_self h3]
  · simp [recordedSkills, addSkillStep, setSkills, h1, h2, currentSkills,
      List.getD, List.getElem?_set_self h3]
  · simp [recordedSkills, clearSkillsStep, h1, h2, currentSkills,
      List.getD, List.getElem?_append, h3]

/-- Witness for the C9 amended theorem at a concrete aliased state. -/
theorem generation_result_aliases_skills_witness :
    recordedSkills (removeSkillStep aliasState ("Python"))
        = some (removeSkill ("Python") (currentSkills aliasState)) ∧
    recordedSkills (addSkillStep aliasState ("SQL"))
        = some (addSkill ("SQL") (currentSkills aliasState)) ∧
    recordedSkills (clearSkillsStep aliasState) = some (currentSkills aliasState) := by
  refine ⟨?_, ?_, ?_⟩
  · exact (generation_result_aliases_skills aliasState aliasRec ("Python") rfl rfl (by decide)).1
  · exact (generation_result_aliases_skills aliasState aliasRec ("SQL") rfl rfl (by decide)).2.1
  · exact (generation_result_aliases_skills aliasState aliasRec ("SQL") rfl rfl (by decide)).2.2

/-- C10: the sidebar AI Temperature slider value has no effect on any
generation request: for any two slider values the adapter payload is
identical, and therefore so is any backend's response to it. -/
theorem ai_temp_slider_no_effect (t₁ t₂ : ℚ) (r : GenRequest)
    (backend : Payload → String) :
    genAction t₁ r = genAction t₂ r ∧
    backend (genAction t₁ r) = backend (genAction t₂ r) :=
  ⟨rfl, rfl⟩

end StudyHub
